import Mathlib

/-!
A shallow embedding of `crates/uv/src/commands/project/sync.rs`: the `sync`
entry point, the `do_sync` reconciliation pipeline, and the
`apply_no_virtual_project` filter. External collaborator types (the lock's
stored resolution, marker trees, workspace metadata, discovery, locking) are
modelled at their interface boundary; function-valued fields stand for their
behaviour, and fallible external calls are `Except`-valued inputs.
-/

/-- A Python interpreter version, e.g. `[3, 8]` for 3.8. -/
abbrev PyVersion := List Nat

/-- Wheel-compatibility tags, abstract. -/
abbrev Tags := List String

/-- Requested extras (`ExtrasSpecification`), abstract: passed through to the
lock's stored resolution. -/
abbrev ExtrasSpecification := List String

/-- A marker environment: key/value facts about the runtime platform. -/
abbrev MarkerEnv := List (String × String)

/-- Modelled from the spec: the lock's optional interpreter-version
requirement range (`RequiresPython`, from `uv_resolver`, not under `src/`);
only its membership test is observable to the pipeline. -/
structure RequiresPython where
  contains : PyVersion → Bool

/-- Modelled from the spec: a marker expression (`MarkerTree`, from
`pep508_rs`, not under `src/`): a boolean predicate over the marker
environment, plus optional printable contents. -/
structure MarkerTree where
  evaluate : MarkerEnv → Bool
  contents : Option String

/-- A resolved distribution: package name plus optional content hash. -/
structure ResolvedDist where
  name : String
  hash : Option String
  deriving DecidableEq

/-- Modelled from the spec: a `Resolution` (from `distribution_types`, not
under `src/`) is an immutable mapping from package name to chosen
distribution. -/
structure Resolution where
  dists : List ResolvedDist
  deriving DecidableEq

/-- Modelled from the spec: `Resolution::filter` returns a new `Resolution`
keeping exactly the entries satisfying the predicate. -/
def Resolution.filter (r : Resolution) (p : ResolvedDist → Bool) : Resolution :=
  ⟨r.dists.filter p⟩

/-- Modelled from the spec: the parts of a `pyproject.toml` that decide
whether a workspace member is distributable. -/
structure PyProjectToml where
  declares_package : Bool
  has_build_system : Bool
  deriving DecidableEq

/-- Modelled from the spec: `PyProjectToml::is_package` (from `uv_workspace`,
not under `src/`): "a project is a package if it is explicitly marked as
such, or if a build system is present". -/
def PyProjectToml.is_package (t : PyProjectToml) : Bool :=
  t.declares_package || t.has_build_system

/-- A workspace member's metadata. -/
structure WorkspacePackage where
  pyproject_toml : PyProjectToml
  deriving DecidableEq

/-- Modelled from the spec: the workspace topology (`Workspace`, from
`uv_workspace`, not under `src/`): a mapping from package name to member
metadata. -/
structure Workspace where
  packages : List (String × WorkspacePackage)
  deriving DecidableEq

/-- A workspace together with a concrete current project. -/
structure ProjectWorkspace where
  root : String
  workspace : Workspace
  deriving DecidableEq

/-- The unit of work: a concrete project, or a purely virtual workspace
root (`VirtualProject`, from `uv_workspace`). -/
inductive VirtualProject where
  | project (w : ProjectWorkspace)
  | nonProject (w : Workspace)
  deriving DecidableEq

/-- Modelled from the spec: `Workspace::with_current_project` (from
`uv_workspace`, not under `src/`) selects the named member as the current
project, returning `none` when the name is not a workspace member. -/
def Workspace.with_current_project (ws : Workspace) (name : String) :
    Option ProjectWorkspace :=
  if ws.packages.any (fun q => q.1 == name) then some ⟨name, ws⟩ else none

/-- Payload of a solver "no solution" failure, abstract. -/
abbrev NoSolutionError := String

/-- `uv_resolver::ResolveError`, at its interface boundary. -/
inductive ResolveError where
  | noSolution (err : NoSolutionError)
  | otherResolve (msg : String)
  deriving DecidableEq

/-- `pip::operations::Error`, at its interface boundary. -/
inductive OperationError where
  | resolve (e : ResolveError)
  | otherOperation (msg : String)
  deriving DecidableEq

/-- `ProjectError`: the failure taxonomy of the reconciliation pipeline, with
the variants reachable from the modelled code. -/
inductive ProjectError where
  | operation (e : OperationError)
  | lockedPythonIncompatibility (v : PyVersion) (r : RequiresPython)
  | lockedPlatformIncompatibility (envs : String)
  | tags (msg : String)
  | lock (msg : String)
  | hash (name : String)

/-- The lock: interpreter requirement, supported environments, and the
stored-resolution materializer (`Lock::to_resolution`, from `uv_resolver`,
not under `src/`, modelled as an interface function from the selection
criteria to a resolution or a construction error). -/
structure Lock where
  requires_python : Option RequiresPython
  supported_environments : List MarkerTree
  to_resolution : VirtualProject → MarkerEnv → Tags → ExtrasSpecification →
      List String → Except String Resolution

/-- The runtime interpreter, at its interface boundary. -/
structure Interpreter where
  python_version : PyVersion
  resolver_markers : MarkerEnv
  tags : Except String Tags

/-- The target virtual environment. -/
structure PythonEnvironment where
  interpreter : Interpreter

/-- `BuildIsolation` (from `uv_types`), at its interface boundary. -/
inductive BuildIsolation where
  | isolated
  | shared (venv : PythonEnvironment)
  | sharedPackage (venv : PythonEnvironment) (packages : List String)

/-- `HashCheckingMode` (from `uv_configuration`). -/
inductive HashCheckingMode where
  | verify
  | require
  deriving DecidableEq

/-- `HashStrategy` (from `uv_types`), at its interface boundary: the checking
mode plus the name-to-hash table taken from the resolution. -/
structure HashStrategy where
  mode : HashCheckingMode
  hashes : List (String × String)
  deriving DecidableEq

/-- Modelled from the spec: `HashStrategy::from_resolution` (from `uv_types`,
not under `src/`): every entry must carry a hash or the construction fails,
naming the offending package. -/
def HashStrategy.from_resolution (r : Resolution) (mode : HashCheckingMode) :
    Except String HashStrategy :=
  match r.dists.find? (fun d => d.hash.isNone) with
  | some d => .error d.name
  | none => .ok ⟨mode, r.dists.filterMap (fun d => d.hash.map (fun h => (d.name, h)))⟩

/-- Modelled from the spec: install scope options (`InstallOptions`, from
`uv_configuration`, not under `src/`): a policy selecting the subset of the
resolution the user wants touched. -/
structure InstallOptions where
  keep : String → Bool

/-- Modelled from the spec: `InstallOptions::filter_resolution` narrows the
resolution to the user-selected subset. -/
def InstallOptions.filter_resolution (o : InstallOptions) (r : Resolution)
    (_project : VirtualProject) : Resolution :=
  r.filter (fun d => o.keep d.name)

/-- The installer settings fields consumed by the pipeline steps modelled
here (`InstallerSettingsRef`). -/
structure InstallerSettingsRef where
  no_build_isolation : Bool
  no_build_isolation_package : List String
  deriving DecidableEq

/-- `DEV_DEPENDENCIES` (from `uv_normalize`): the synthetic dev group name. -/
def DEV_DEPENDENCIES : String := "dev"

/-- Filter out any virtual workspace members (`apply_no_virtual_project`,
sync.rs lines 300-326). -/
def apply_no_virtual_project (resolution : Resolution)
    (project : VirtualProject) : Resolution :=
  match project with
  | .nonProject _ => resolution
  | .project project =>
    let virtual_members := project.workspace.packages.filterMap (fun q =>
      if q.2.pyproject_toml.is_package then none else some q.1)
    resolution.filter (fun dist => !virtual_members.contains dist.name)

/-- Build-isolation policy selection (`do_sync`, sync.rs lines 224-231). -/
def build_isolation (no_build_isolation : Bool)
    (no_build_isolation_package : List String) (venv : PythonEnvironment) :
    BuildIsolation :=
  if no_build_isolation then
    BuildIsolation.shared venv
  else if no_build_isolation_package.isEmpty then
    BuildIsolation.isolated
  else
    BuildIsolation.sharedPackage venv no_build_isolation_package

/-- The formatted supported-environments string carried by
`LockedPlatformIncompatibility` (`do_sync`, sync.rs lines 179-183). -/
def format_environments (environments : List MarkerTree) : String :=
  String.intercalate ", "
    ((environments.filterMap MarkerTree.contents).map (fun env => "`" ++ env ++ "`"))

/-- Observable pipeline steps of `do_sync`, in execution order. -/
inductive Event where
  | interpCheck
  | platformCheck
  | buildResolution (dev_groups : List String)
  | buildClient
  | install
  deriving DecidableEq

/-- What `do_sync` hands to the installer (`pip::operations::install`). -/
structure SyncOutcome where
  resolution : Resolution
  build_isolation : BuildIsolation
  hasher : HashStrategy

/-- The tail of `do_sync` after both compatibility checks: dev groups, tags,
resolution construction, the two-stage filter pipeline, registry client and
build-isolation policy selection, hash extraction, and the installer
hand-off (sync.rs lines 188-296). -/
def do_sync_rest (project : VirtualProject) (venv : PythonEnvironment)
    (lock : Lock) (extras : ExtrasSpecification) (dev : Bool)
    (install_options : InstallOptions) (settings : InstallerSettingsRef)
    (markers : MarkerEnv) : List Event × Except ProjectError SyncOutcome :=
  let dev_groups := if dev then [DEV_DEPENDENCIES] else []
  match venv.interpreter.tags with
  | .error e => ([.interpCheck, .platformCheck], .error (.tags e))
  | .ok tags =>
    match lock.to_resolution project markers tags extras dev_groups with
    | .error e =>
        ([.interpCheck, .platformCheck, .buildResolution dev_groups],
          .error (.lock e))
    | .ok resolution =>
      let resolution := apply_no_virtual_project resolution project
      let resolution := install_options.filter_resolution resolution project
      let isolation := build_isolation settings.no_build_isolation
        settings.no_build_isolation_package venv
      match HashStrategy.from_resolution resolution HashCheckingMode.verify with
      | .error e =>
          ([.interpCheck, .platformCheck, .buildResolution dev_groups,
              .buildClient],
            .error (.hash e))
      | .ok hasher =>
          ([.interpCheck, .platformCheck, .buildResolution dev_groups,
              .buildClient, .install],
            .ok ⟨resolution, isolation, hasher⟩)

/-- The platform check of `do_sync` (sync.rs lines 171-186) followed by the
rest of the pipeline: fail with `LockedPlatformIncompatibility` when the
declared supported environments are non-empty and none evaluates true
against the runtime markers. -/
def do_sync_platform (project : VirtualProject) (venv : PythonEnvironment)
    (lock : Lock) (extras : ExtrasSpecification) (dev : Bool)
    (install_options : InstallOptions) (settings : InstallerSettingsRef) :
    List Event × Except ProjectError SyncOutcome :=
  let markers := venv.interpreter.resolver_markers
  let environments := lock.supported_environments
  if !environments.isEmpty then
    if !environments.any (fun env => env.evaluate markers) then
      ([.interpCheck, .platformCheck],
        .error (.lockedPlatformIncompatibility (format_environments environments)))
    else
      do_sync_rest project venv lock extras dev install_options settings markers
  else
    do_sync_rest project venv lock extras dev install_options settings markers

/-- `do_sync`: the reconciliation pipeline (sync.rs lines 127-297), returning
the executed pipeline steps and either a failure or the installer hand-off.
The interpreter-version check (lines 161-169) runs first. -/
def do_sync (project : VirtualProject) (venv : PythonEnvironment) (lock : Lock)
    (extras : ExtrasSpecification) (dev : Bool)
    (install_options : InstallOptions) (settings : InstallerSettingsRef) :
    List Event × Except ProjectError SyncOutcome :=
  match lock.requires_python with
  | some requires_python =>
    if !requires_python.contains venv.interpreter.python_version then
      ([.interpCheck],
        .error (.lockedPythonIncompatibility venv.interpreter.python_version
          requires_python))
    else
      do_sync_platform project venv lock extras dev install_options settings
  | none => do_sync_platform project venv lock extras dev install_options settings

/-- The generic (anyhow-style) error type of the `sync` entry point. -/
inductive GenericError where
  | context (msg : String)
  | fromProject (e : ProjectError)
  | external (msg : String)

/-- `ExitStatus` of the command layer, restricted to the outcomes `sync`
produces. -/
inductive ExitStatus where
  | success
  | failure
  deriving DecidableEq

/-- Observable steps of the `sync` entry point, in execution order. -/
inductive SyncEvent where
  | identifyProject
  | initEnvironment
  | safeLock
  | reportNoSolution (err : NoSolutionError)
  | runDoSync
  deriving DecidableEq

/-- The external effects `sync` depends on, at their interface boundary:
workspace discovery, environment provisioning, and `do_safe_lock`. -/
structure SyncEnv where
  discover_workspace : Except GenericError Workspace
  discover_virtual : Except GenericError VirtualProject
  get_or_init_environment : Except GenericError PythonEnvironment
  do_safe_lock : Except ProjectError Lock

/-- The project-identification step of `sync` (sync.rs lines 48-58): an
explicit package name is looked up in the discovered workspace, and a
missing name fails with a context message naming the package. -/
def identify_project (package : Option String) (env : SyncEnv) :
    Except GenericError VirtualProject :=
  match package with
  | some package =>
    match env.discover_workspace with
    | .error e => .error e
    | .ok ws =>
      match ws.with_current_project package with
      | some pw => .ok (VirtualProject.project pw)
      | none =>
          .error (.context ("Package `" ++ package ++ "` not found in workspace"))
  | none => env.discover_virtual

/-- `sync`: the entry point (sync.rs lines 30-123): identify the project,
provision the environment, lock, and run `do_sync`. A solver no-solution
failure from locking is reported through a dedicated path and mapped to a
failure exit status; every other locking error is propagated unchanged. -/
def sync (package : Option String) (extras : ExtrasSpecification) (dev : Bool)
    (install_options : InstallOptions) (settings : InstallerSettingsRef)
    (env : SyncEnv) : List SyncEvent × Except GenericError ExitStatus :=
  match identify_project package env with
  | .error e => ([.identifyProject], .error e)
  | .ok project =>
    match env.get_or_init_environment with
    | .error e => ([.identifyProject, .initEnvironment], .error e)
    | .ok venv =>
      match env.do_safe_lock with
      | .ok lock =>
        match (do_sync project venv lock extras dev install_options settings).2 with
        | .error e =>
            ([.identifyProject, .initEnvironment, .safeLock, .runDoSync],
              .error (.fromProject e))
        | .ok _ =>
            ([.identifyProject, .initEnvironment, .safeLock, .runDoSync],
              .ok .success)
      | .error (.operation (.resolve (.noSolution err))) =>
          ([.identifyProject, .initEnvironment, .safeLock,
              .reportNoSolution err],
            .ok .failure)
      | .error e =>
          ([.identifyProject, .initEnvironment, .safeLock],
            .error (.fromProject e))

/-- A concrete interpreter at version 3.8 used by the witness theorems. -/
def interp0 : Interpreter :=
  { python_version := [3, 8], resolver_markers := [("sys_platform", "linux")],
    tags := .ok ["cp38-none-any"] }

/-- A concrete environment used by the witness theorems. -/
def venv0 : PythonEnvironment := { interpreter := interp0 }

/-- An interpreter requirement satisfied by no version. -/
def rpFalse : RequiresPython := { contains := fun _ => false }

/-- A supported-environment marker that evaluates false everywhere. -/
def markerFalse : MarkerTree :=
  { evaluate := fun _ => false, contents := some "sys_platform == 'darwin'" }

/-- A hashed distributable entry. -/
def distA : ResolvedDist := { name := "alpha", hash := some "sha256:aaaa" }

/-- A hashed entry whose name is a virtual workspace member. -/
def distV : ResolvedDist := { name := "virtpkg", hash := some "sha256:bbbb" }

/-- A concrete two-entry resolution. -/
def res0 : Resolution := { dists := [distA, distV] }

/-- A distributable workspace member. -/
def pkgRoot : WorkspacePackage :=
  { pyproject_toml := { declares_package := true, has_build_system := true } }

/-- A virtual (non-distributable) workspace member. -/
def pkgVirtual : WorkspacePackage :=
  { pyproject_toml := { declares_package := false, has_build_system := false } }

/-- A workspace with one distributable and one virtual member. -/
def ws0 : Workspace := { packages := [("alpha", pkgRoot), ("virtpkg", pkgVirtual)] }

/-- The concrete current project rooted at `alpha`. -/
def pw0 : ProjectWorkspace := { root := "alpha", workspace := ws0 }

/-- The concrete unit of work. -/
def proj0 : VirtualProject := .project pw0

/-- A lock with no interpreter requirement and no platform restriction. -/
def lockOk : Lock :=
  { requires_python := none, supported_environments := [],
    to_resolution := fun _ _ _ _ _ => .ok res0 }

/-- A lock whose interpreter requirement rejects every version. -/
def lockBadInterp : Lock :=
  { requires_python := some rpFalse, supported_environments := [],
    to_resolution := fun _ _ _ _ _ => .ok res0 }

/-- A lock whose supported environments match no marker environment. -/
def lockBadPlatform : Lock :=
  { requires_python := none, supported_environments := [markerFalse],
    to_resolution := fun _ _ _ _ _ => .ok res0 }

/-- A lock failing both the interpreter and the platform condition. -/
def lockBadBoth : Lock :=
  { requires_python := some rpFalse, supported_environments := [markerFalse],
    to_resolution := fun _ _ _ _ _ => .ok res0 }

/-- Scope options keeping everything. -/
def optsAll : InstallOptions := { keep := fun _ => true }

/-- Default installer settings: isolated builds. -/
def settings0 : InstallerSettingsRef :=
  { no_build_isolation := false, no_build_isolation_package := [] }

/-- Installer settings with the global no-build-isolation flag set. -/
def settingsShared : InstallerSettingsRef :=
  { no_build_isolation := true, no_build_isolation_package := [] }

/-- The installer hand-off produced by the successful concrete run. -/
def out0 : SyncOutcome :=
  { resolution := { dists := [distA] },
    build_isolation := BuildIsolation.isolated,
    hasher := { mode := HashCheckingMode.verify,
                hashes := [("alpha", "sha256:aaaa")] } }

/-- A sync environment whose locking step reports a no-solution failure. -/
def envNoSolution : SyncEnv :=
  { discover_workspace := .ok ws0, discover_virtual := .ok proj0,
    get_or_init_environment := .ok venv0,
    do_safe_lock := .error (.operation (.resolve (.noSolution "no solution"))) }

/-- A sync environment where every external step succeeds. -/
def envOk : SyncEnv :=
  { discover_workspace := .ok ws0, discover_virtual := .ok proj0,
    get_or_init_environment := .ok venv0, do_safe_lock := .ok lockOk }

/-- Classifies a pipeline outcome as a `LockedPlatformIncompatibility`
failure. -/
def fails_platform (r : Except ProjectError SyncOutcome) : Bool :=
  match r with
  | .error (.lockedPlatformIncompatibility _) => true
  | _ => false

/-- Case analysis of `do_sync_rest`: the four ways the pipeline tail can
end, each with its event trace and outcome. -/
theorem do_sync_rest_cases (project : VirtualProject) (venv : PythonEnvironment)
    (lock : Lock) (extras : ExtrasSpecification) (dev : Bool)
    (install_options : InstallOptions) (settings : InstallerSettingsRef)
    (markers : MarkerEnv) :
    (∃ e, venv.interpreter.tags = .error e
      ∧ do_sync_rest project venv lock extras dev install_options settings markers
          = ([.interpCheck, .platformCheck], .error (.tags e)))
    ∨ (∃ tags e, venv.interpreter.tags = .ok tags
      ∧ lock.to_resolution project markers tags extras
          (if dev then [DEV_DEPENDENCIES] else []) = .error e
      ∧ do_sync_rest project venv lock extras dev install_options settings markers
          = ([.interpCheck, .platformCheck,
              .buildResolution (if dev then [DEV_DEPENDENCIES] else [])],
            .error (.lock e)))
    ∨ (∃ tags resolution0 e, venv.interpreter.tags = .ok tags
      ∧ lock.to_resolution project markers tags extras
          (if dev then [DEV_DEPENDENCIES] else []) = .ok resolution0
      ∧ HashStrategy.from_resolution
          (install_options.filter_resolution
            (apply_no_virtual_project resolution0 project) project)
          HashCheckingMode.verify = .error e
      ∧ do_sync_rest project venv lock extras dev install_options settings markers
          = ([.interpCheck, .platformCheck,
              .buildResolution (if dev then [DEV_DEPENDENCIES] else []),
              .buildClient],
            .error (.hash e)))
    ∨ (∃ tags resolution0 hasher, venv.interpreter.tags = .ok tags
      ∧ lock.to_resolution project markers tags extras
          (if dev then [DEV_DEPENDENCIES] else []) = .ok resolution0
      ∧ HashStrategy.from_resolution
          (install_options.filter_resolution
            (apply_no_virtual_project resolution0 project) project)
          HashCheckingMode.verify = .ok hasher
      ∧ do_sync_rest project venv lock extras dev install_options settings markers
          = ([.interpCheck, .platformCheck,
              .buildResolution (if dev then [DEV_DEPENDENCIES] else []),
              .buildClient, .install],
            .ok ⟨install_options.filter_resolution
                  (apply_no_virtual_project resolution0 project) project,
                build_isolation settings.no_build_isolation
                  settings.no_build_isolation_package venv,
                hasher⟩)) := by
  cases htags : venv.interpreter.tags with
  | error e => exact Or.inl ⟨e, rfl, by simp [do_sync_rest, htags]⟩
  | ok tags =>
    cases hres : lock.to_resolution project markers tags extras
        (if dev then [DEV_DEPENDENCIES] else []) with
    | error e =>
      exact Or.inr (Or.inl ⟨tags, e, rfl, hres,
        by simp [do_sync_rest, htags, hres]⟩)
    | ok resolution0 =>
      cases hh : HashStrategy.from_resolution
          (install_options.filter_resolution
            (apply_no_virtual_project resolution0 project) project)
          HashCheckingMode.verify with
      | error e =>
        exact Or.inr (Or.inr (Or.inl ⟨tags, resolution0, e, rfl, hres, hh,
          by simp [do_sync_rest, htags, hres, hh]⟩))
      | ok hasher =>
        exact Or.inr (Or.inr (Or.inr ⟨tags, resolution0, hasher, rfl, hres, hh,
          by simp [do_sync_rest, htags, hres, hh]⟩))

/-- Case analysis of `do_sync_platform`: either the platform check fails, or
it passes and the pipeline tail runs. -/
theorem do_sync_platform_cases (project : VirtualProject)
    (venv : PythonEnvironment) (lock : Lock) (extras : ExtrasSpecification)
    (dev : Bool) (install_options : InstallOptions)
    (settings : InstallerSettingsRef) :
    (lock.supported_environments.isEmpty = false
      ∧ lock.supported_environments.any
          (fun env => env.evaluate venv.interpreter.resolver_markers) = false
      ∧ do_sync_platform project venv lock extras dev install_options settings
          = ([.interpCheck, .platformCheck],
            .error (.lockedPlatformIncompatibility
              (format_environments lock.supported_environments))))
    ∨ ((lock.supported_environments.isEmpty = true
        ∨ lock.supported_environments.any
            (fun env => env.evaluate venv.interpreter.resolver_markers) = true)
      ∧ do_sync_platform project venv lock extras dev install_options settings
          = do_sync_rest project venv lock extras dev install_options settings
              venv.interpreter.resolver_markers) := by
  by_cases hemp : lock.supported_environments.isEmpty
  · exact Or.inr ⟨Or.inl hemp, by simp [do_sync_platform, hemp]⟩
  · by_cases hany : lock.supported_environments.any
        (fun env => env.evaluate venv.interpreter.resolver_markers)
    · exact Or.inr ⟨Or.inr hany, by simp [do_sync_platform, hemp, hany]⟩
    · exact Or.inl ⟨by simpa using hemp, by simpa using hany,
        by simp [do_sync_platform, hemp, hany]⟩

/-- Case analysis of `do_sync`: either the interpreter check fails first, or
it passes and the platform stage runs. -/
theorem do_sync_cases (project : VirtualProject) (venv : PythonEnvironment)
    (lock : Lock) (extras : ExtrasSpecification) (dev : Bool)
    (install_options : InstallOptions) (settings : InstallerSettingsRef) :
    (∃ rp, lock.requires_python = some rp
      ∧ rp.contains venv.interpreter.python_version = false
      ∧ do_sync project venv lock extras dev install_options settings
          = ([.interpCheck],
            .error (.lockedPythonIncompatibility
              venv.interpreter.python_version rp)))
    ∨ ((lock.requires_python = none
        ∨ ∃ rp, lock.requires_python = some rp
            ∧ rp.contains venv.interpreter.python_version = true)
      ∧ do_sync project venv lock extras dev install_options settings
          = do_sync_platform project venv lock extras dev install_options
              settings) := by
  cases hrp : lock.requires_python with
  | none => exact Or.inr ⟨Or.inl rfl, by simp [do_sync, hrp]⟩
  | some rp =>
    by_cases hc : rp.contains venv.interpreter.python_version
    · exact Or.inr ⟨Or.inr ⟨rp, rfl, hc⟩, by simp [do_sync, hrp, hc]⟩
    · exact Or.inl ⟨rp, rfl, by simpa using hc, by simp [do_sync, hrp, hc]⟩

/-- The pipeline tail never reports an interpreter incompatibility. -/
theorem do_sync_rest_ne_interp (project : VirtualProject)
    (venv : PythonEnvironment) (lock : Lock) (extras : ExtrasSpecification)
    (dev : Bool) (install_options : InstallOptions)
    (settings : InstallerSettingsRef) (markers : MarkerEnv) (v : PyVersion)
    (r : RequiresPython) :
    (do_sync_rest project venv lock extras dev install_options settings
        markers).2 ≠ .error (.lockedPythonIncompatibility v r) := by
  rcases do_sync_rest_cases project venv lock extras dev install_options
      settings markers with
    ⟨e, _, h⟩ | ⟨t, e, _, _, h⟩ | ⟨t, r0, e, _, _, _, h⟩ | ⟨t, r0, hs, _, _, _, h⟩ <;>
    rw [h] <;> simp

/-- The pipeline tail never reports a platform incompatibility. -/
theorem do_sync_rest_ne_platform (project : VirtualProject)
    (venv : PythonEnvironment) (lock : Lock) (extras : ExtrasSpecification)
    (dev : Bool) (install_options : InstallOptions)
    (settings : InstallerSettingsRef) (markers : MarkerEnv) (s : String) :
    (do_sync_rest project venv lock extras dev install_options settings
        markers).2 ≠ .error (.lockedPlatformIncompatibility s) := by
  rcases do_sync_rest_cases project venv lock extras dev install_options
      settings markers with
    ⟨e, _, h⟩ | ⟨t, e, _, _, h⟩ | ⟨t, r0, e, _, _, _, h⟩ | ⟨t, r0, hs, _, _, _, h⟩ <;>
    rw [h] <;> simp

/-- A successful hash-strategy construction keeps the requested mode. -/
theorem from_resolution_ok_mode (r : Resolution) (m : HashCheckingMode)
    (h : HashStrategy) (hh : HashStrategy.from_resolution r m = .ok h) :
    h.mode = m := by
  unfold HashStrategy.from_resolution at hh
  cases hfind : r.dists.find? (fun d => d.hash.isNone) with
  | some d => rw [hfind] at hh; exact absurd hh (by simp)
  | none => rw [hfind] at hh; injection hh with hh; rw [← hh]

/-- A successful hash-strategy construction means every entry is hashed. -/
theorem from_resolution_ok_hashed (r : Resolution) (m : HashCheckingMode)
    (h : HashStrategy) (hh : HashStrategy.from_resolution r m = .ok h) :
    ∀ d ∈ r.dists, d.hash ≠ none := by
  unfold HashStrategy.from_resolution at hh
  cases hfind : r.dists.find? (fun d => d.hash.isNone) with
  | some d => rw [hfind] at hh; exact absurd hh (by simp)
  | none =>
    intro d hd hnone
    have hnp := List.find?_eq_none.mp hfind d hd
    simp [hnone] at hnp

/-- An entry without a hash makes the hash-strategy construction fail. -/
theorem from_resolution_error_of_unhashed (r : Resolution)
    (m : HashCheckingMode) (h : ∃ d ∈ r.dists, d.hash = none) :
    ∃ e, HashStrategy.from_resolution r m = .error e := by
  obtain ⟨d, hd, hn⟩ := h
  unfold HashStrategy.from_resolution
  cases hfind : r.dists.find? (fun q => q.hash.isNone) with
  | some d2 => exact ⟨d2.name, rfl⟩
  | none =>
    exfalso
    have hnp := List.find?_eq_none.mp hfind d hd
    simp [hn] at hnp

/-- C1: `do_sync` fails with the interpreter-incompatibility error
(`LockedPythonIncompatibility`), carrying the runtime version and the
declared requirement, exactly when the lock declares a requirement that
does not contain the runtime's interpreter version; when the lock declares
none, this failure never occurs. -/
theorem c1_interpreter_check (project : VirtualProject)
    (venv : PythonEnvironment) (lock : Lock) (extras : ExtrasSpecification)
    (dev : Bool) (install_options : InstallOptions)
    (settings : InstallerSettingsRef) :
    ((∃ v r, (do_sync project venv lock extras dev install_options settings).2
        = .error (.lockedPythonIncompatibility v r))
      ↔ (∃ rp, lock.requires_python = some rp
          ∧ rp.contains venv.interpreter.python_version = false))
    ∧ (∀ rp, lock.requires_python = some rp →
        rp.contains venv.interpreter.python_version = false →
        (do_sync project venv lock extras dev install_options settings).2
          = .error (.lockedPythonIncompatibility
              venv.interpreter.python_version rp)) := by
  rcases do_sync_cases project venv lock extras dev install_options settings with
    ⟨rp, hrp, hc, heq⟩ | ⟨hpass, heq⟩
  · refine ⟨⟨fun _ => ⟨rp, hrp, hc⟩, fun _ => ?_⟩, fun rp2 hrp2 _ => ?_⟩
    · exact ⟨venv.interpreter.python_version, rp, by rw [heq]⟩
    · rw [hrp] at hrp2
      injection hrp2 with h
      subst h
      rw [heq]
  · have hni : ∀ v r,
        (do_sync project venv lock extras dev install_options settings).2
          ≠ .error (.lockedPythonIncompatibility v r) := by
      intro v r herr
      rw [heq] at herr
      rcases do_sync_platform_cases project venv lock extras dev
          install_options settings with ⟨_, _, hp⟩ | ⟨_, hp⟩
      · rw [hp] at herr
        exact absurd herr (by simp)
      · rw [hp] at herr
        exact do_sync_rest_ne_interp project venv lock extras dev
          install_options settings venv.interpreter.resolver_markers v r herr
    have hnc : ∀ rp, lock.requires_python = some rp →
        rp.contains venv.interpreter.python_version ≠ false := by
      intro rp hrp hc
      rcases hpass with hnone | ⟨rp2, hrp2, hc2⟩
      · rw [hnone] at hrp; exact absurd hrp (by simp)
      · rw [hrp2] at hrp
        injection hrp with h
        subst h
        rw [hc] at hc2
        exact absurd hc2 (by simp)
    refine ⟨⟨fun ⟨v, r, herr⟩ => absurd herr (hni v r),
        fun ⟨rp, hrp, hc⟩ => absurd hc (hnc rp hrp)⟩,
      fun rp hrp hc => absurd hc (hnc rp hrp)⟩

/-- Witness for C1: a lock whose requirement contains no version makes the
concrete run fail with the interpreter error carrying version and range. -/
theorem c1_interpreter_check_witness :
    (do_sync proj0 venv0 lockBadInterp [] false optsAll settings0).2
      = .error (.lockedPythonIncompatibility [3, 8] rpFalse) :=
  (c1_interpreter_check proj0 venv0 lockBadInterp [] false optsAll
    settings0).2 rpFalse rfl rfl

/-- C2 (amended): provided the interpreter check passes, `do_sync` fails
with `LockedPlatformIncompatibility` — carrying the formatted declared
environment set — exactly when the declared supported environments are
non-empty and none evaluates true against the runtime markers; with an
empty declared set the platform check never fails. -/
theorem c2_platform_check (project : VirtualProject) (venv : PythonEnvironment)
    (lock : Lock) (extras : ExtrasSpecification) (dev : Bool)
    (install_options : InstallOptions) (settings : InstallerSettingsRef)
    (hinterp : ∀ rp, lock.requires_python = some rp →
      rp.contains venv.interpreter.python_version = true) :
    ((∃ s, (do_sync project venv lock extras dev install_options settings).2
        = .error (.lockedPlatformIncompatibility s))
      ↔ (lock.supported_environments.isEmpty = false
          ∧ lock.supported_environments.any
              (fun env => env.evaluate venv.interpreter.resolver_markers)
            = false))
    ∧ ((lock.supported_environments.isEmpty = false
        ∧ lock.supported_environments.any
            (fun env => env.evaluate venv.interpreter.resolver_markers)
          = false) →
        (do_sync project venv lock extras dev install_options settings).2
          = .error (.lockedPlatformIncompatibility
              (format_environments lock.supported_environments))) := by
  have hds : do_sync project venv lock extras dev install_options settings
      = do_sync_platform project venv lock extras dev install_options
          settings := by
    rcases do_sync_cases project venv lock extras dev install_options
        settings with ⟨rp, hrp, hc, _⟩ | ⟨_, heq⟩
    · rw [hinterp rp hrp] at hc
      exact absurd hc (by simp)
    · exact heq
  rcases do_sync_platform_cases project venv lock extras dev install_options
      settings with ⟨hemp, hany, hp⟩ | ⟨hpass, hp⟩
  · exact ⟨⟨fun _ => ⟨hemp, hany⟩,
      fun _ => ⟨format_environments lock.supported_environments,
        by rw [hds, hp]⟩⟩,
      fun _ => by rw [hds, hp]⟩
  · have hno : ¬ (lock.supported_environments.isEmpty = false
        ∧ lock.supported_environments.any
            (fun env => env.evaluate venv.interpreter.resolver_markers)
          = false) := by
      rintro ⟨hemp, hany⟩
      rcases hpass with h | h
      · rw [hemp] at h; exact absurd h (by simp)
      · rw [hany] at h; exact absurd h (by simp)
    refine ⟨⟨fun ⟨s, herr⟩ => ?_, fun h => absurd h hno⟩,
      fun h => absurd h hno⟩
    rw [hds, hp] at herr
    exact absurd herr (do_sync_rest_ne_platform project venv lock extras dev
      install_options settings venv.interpreter.resolver_markers s)

/-- Witness for C2: with no interpreter requirement and a single
never-matching supported environment, the concrete run fails with the
platform error carrying the formatted environment set. -/
theorem c2_platform_check_witness :
    (do_sync proj0 venv0 lockBadPlatform [] false optsAll settings0).2
      = .error (.lockedPlatformIncompatibility
          (format_environments lockBadPlatform.supported_environments)) :=
  (c2_platform_check proj0 venv0 lockBadPlatform [] false optsAll settings0
    (fun _ h => Option.noConfusion h)).2 ⟨rfl, rfl⟩

/-- C2 (counterexample): `lockBadBoth` declares a non-empty supported
environment set none of whose members evaluates true, yet `do_sync` does
not fail with `LockedPlatformIncompatibility` — the interpreter check fails
first — so the claim's biconditional, quantified over every lock, is
false. -/
theorem c2_platform_check_counterexample :
    lockBadBoth.supported_environments.isEmpty = false
    ∧ lockBadBoth.supported_environments.any
        (fun env => env.evaluate venv0.interpreter.resolver_markers) = false
    ∧ fails_platform
        (do_sync proj0 venv0 lockBadBoth [] false optsAll settings0).2 = false
    ∧ (do_sync proj0 venv0 lockBadBoth [] false optsAll settings0).2
        = .error (.lockedPythonIncompatibility [3, 8] rpFalse) :=
  ⟨rfl, rfl, rfl, rfl⟩

/-- Membership in the virtual-member name set computed by
`apply_no_virtual_project` coincides with being the name of a workspace
member that is not a package. -/
theorem virtual_members_contains (packages : List (String × WorkspacePackage))
    (name : String) :
    (packages.filterMap (fun q =>
        if q.2.pyproject_toml.is_package then none else some q.1)).contains name
      = packages.any (fun q =>
          q.1 == name && !q.2.pyproject_toml.is_package) := by
  induction packages with
  | nil => rfl
  | cons q rest ih =>
    by_cases h : q.2.pyproject_toml.is_package
    · simp only [List.filterMap_cons, h, if_pos, List.any_cons, Bool.not_true,
        Bool.and_false, Bool.false_or]
      exact ih
    · simp only [List.filterMap_cons, h, Bool.not_eq_true, if_neg,
        List.contains_cons, List.any_cons]
      rw [ih]
      have hq : q.2.pyproject_toml.is_package = false := by
        simpa using h
      simp [hq, BEq.comm]

/-- C4: the virtual-member filter leaves the resolution unchanged for a
purely virtual unit of work, and for a concrete project removes exactly the
entries whose name is a workspace member that is not a package (neither
explicitly marked as a package nor carrying a build system), keeping every
other entry in place. -/
theorem c4_apply_no_virtual_project (r : Resolution) :
    (∀ w, apply_no_virtual_project r (VirtualProject.nonProject w) = r)
    ∧ (∀ pw, (apply_no_virtual_project r (VirtualProject.project pw)).dists
        = r.dists.filter (fun d =>
            !pw.workspace.packages.any (fun q =>
              q.1 == d.name && !q.2.pyproject_toml.is_package))) := by
  constructor
  · intro w
    rfl
  · intro pw
    unfold apply_no_virtual_project Resolution.filter
    refine congrArg (List.filter · r.dists) ?_
    funext d
    rw [virtual_members_contains]

/-- C3: for a concrete project, a non-distributable workspace member never
survives the two-stage filter pipeline, whatever the scope options are. -/
theorem c3_virtual_member_filtered (r : Resolution)
    (install_options : InstallOptions) (pw : ProjectWorkspace) (x : String)
    (pkg : WorkspacePackage) (hmem : (x, pkg) ∈ pw.workspace.packages)
    (hvirtual : pkg.pyproject_toml.is_package = false) :
    ∀ d ∈ (install_options.filter_resolution
        (apply_no_virtual_project r (VirtualProject.project pw))
        (VirtualProject.project pw)).dists, d.name ≠ x := by
  intro d hd hname
  subst hname
  unfold InstallOptions.filter_resolution Resolution.filter at hd
  have hd2 := (List.mem_filter.mp hd).1
  unfold apply_no_virtual_project Resolution.filter at hd2
  have hcond := (List.mem_filter.mp hd2).2
  have hx : d.name ∈ pw.workspace.packages.filterMap (fun q =>
      if q.2.pyproject_toml.is_package then none else some q.1) := by
    refine List.mem_filterMap.mpr ⟨(d.name, pkg), hmem, ?_⟩
    simp [hvirtual]
  rw [← List.elem_iff] at hx
  simp only [List.contains] at hcond
  rw [hx] at hcond
  exact absurd hcond (by simp)

/-- Witness for C3: the virtual member `virtpkg` does not survive the
pipeline on the concrete fixtures, even though the scope options keep
everything. -/
theorem c3_virtual_member_filtered_witness :
    ("virtpkg", pkgVirtual) ∈ pw0.workspace.packages
    ∧ pkgVirtual.pyproject_toml.is_package = false
    ∧ (optsAll.filter_resolution
        (apply_no_virtual_project res0 (VirtualProject.project pw0))
        (VirtualProject.project pw0)).dists.all
          (fun d => decide (d.name ≠ "virtpkg")) = true := by
  refine ⟨by decide, rfl, ?_⟩
  rw [List.all_eq_true]
  intro d hd
  rw [decide_eq_true_iff]
  exact c3_virtual_member_filtered res0 optsAll pw0 "virtpkg" pkgVirtual
    (by decide) rfl d hd

/-- Every `do_sync` event trace is one of five stage-ordered chains, and the
dev-group argument recorded at the resolution step is always the dev-flag
selection. -/
theorem do_sync_trace_cases (project : VirtualProject)
    (venv : PythonEnvironment) (lock : Lock) (extras : ExtrasSpecification)
    (dev : Bool) (install_options : InstallOptions)
    (settings : InstallerSettingsRef) :
    (do_sync project venv lock extras dev install_options settings).1
        = [Event.interpCheck]
    ∨ (do_sync project venv lock extras dev install_options settings).1
        = [Event.interpCheck, Event.platformCheck]
    ∨ (do_sync project venv lock extras dev install_options settings).1
        = [Event.interpCheck, Event.platformCheck,
            Event.buildResolution (if dev then [DEV_DEPENDENCIES] else [])]
    ∨ (do_sync project venv lock extras dev install_options settings).1
        = [Event.interpCheck, Event.platformCheck,
            Event.buildResolution (if dev then [DEV_DEPENDENCIES] else []),
            Event.buildClient]
    ∨ (do_sync project venv lock extras dev install_options settings).1
        = [Event.interpCheck, Event.platformCheck,
            Event.buildResolution (if dev then [DEV_DEPENDENCIES] else []),
            Event.buildClient, Event.install] := by
  rcases do_sync_cases project venv lock extras dev install_options settings
    with ⟨rp, _, _, heq⟩ | ⟨_, heq⟩
  · left; rw [heq]
  · rcases do_sync_platform_cases project venv lock extras dev install_options
        settings with ⟨_, _, hp⟩ | ⟨_, hp⟩
    · right; left; rw [heq, hp]
    · rcases do_sync_rest_cases project venv lock extras dev install_options
          settings venv.interpreter.resolver_markers with
        ⟨e, _, hr⟩ | ⟨t, e, _, _, hr⟩ | ⟨t, r0, e, _, _, _, hr⟩ |
          ⟨t, r0, hs, _, _, _, hr⟩
      · right; left; rw [heq, hp, hr]
      · right; right; left; rw [heq, hp, hr]
      · right; right; right; left; rw [heq, hp, hr]
      · right; right; right; right; rw [heq, hp, hr]

/-- Characterization of a successful `do_sync` run: the outcome is built
from a tags success and a stored-resolution success, its resolution is the
two-stage-filtered one, its build isolation is the selected policy, its
hasher is the verify-mode strategy over its own resolution, and the trace
is the full pipeline. -/
theorem do_sync_ok_cases (project : VirtualProject) (venv : PythonEnvironment)
    (lock : Lock) (extras : ExtrasSpecification) (dev : Bool)
    (install_options : InstallOptions) (settings : InstallerSettingsRef)
    (out : SyncOutcome)
    (h : (do_sync project venv lock extras dev install_options settings).2
      = .ok out) :
    ∃ tags resolution0,
      venv.interpreter.tags = .ok tags
      ∧ lock.to_resolution project venv.interpreter.resolver_markers tags
          extras (if dev then [DEV_DEPENDENCIES] else []) = .ok resolution0
      ∧ out.resolution = install_options.filter_resolution
          (apply_no_virtual_project resolution0 project) project
      ∧ out.build_isolation = build_isolation settings.no_build_isolation
          settings.no_build_isolation_package venv
      ∧ HashStrategy.from_resolution out.resolution HashCheckingMode.verify
          = .ok out.hasher
      ∧ (do_sync project venv lock extras dev install_options settings).1
          = [Event.interpCheck, Event.platformCheck,
              Event.buildResolution (if dev then [DEV_DEPENDENCIES] else []),
              Event.buildClient, Event.install] := by
  rcases do_sync_cases project venv lock extras dev install_options settings
    with ⟨rp, _, _, heq⟩ | ⟨_, heq⟩
  · rw [heq] at h
    exact absurd h (by simp)
  · rcases do_sync_platform_cases project venv lock extras dev install_options
        settings with ⟨_, _, hp⟩ | ⟨_, hp⟩
    · rw [heq, hp] at h
      exact absurd h (by simp)
    · rcases do_sync_rest_cases project venv lock extras dev install_options
          settings venv.interpreter.resolver_markers with
        ⟨e, _, hr⟩ | ⟨t, e, _, _, hr⟩ | ⟨t, r0, e, _, _, _, hr⟩ |
          ⟨t, r0, hs, htags, hres, hh, hr⟩
      · rw [heq, hp, hr] at h
        exact absurd h (by simp)
      · rw [heq, hp, hr] at h
        exact absurd h (by simp)
      · rw [heq, hp, hr] at h
        exact absurd h (by simp)
      · rw [heq, hp, hr] at h
        injection h with h
        subst h
        exact ⟨t, r0, htags, hres, rfl, rfl, hh, by rw [heq, hp, hr]⟩

/-- C5: the hash policy is derived from the final filtered resolution in
verify mode — a successful run's hasher is the verify-mode strategy over
exactly the outcome resolution, whose entries all carry hashes; the install
step runs exactly on success; and an unhashed entry in the final resolution
forces an error with no install step executed. -/
theorem c5_hash_policy (project : VirtualProject) (venv : PythonEnvironment)
    (lock : Lock) (extras : ExtrasSpecification) (dev : Bool)
    (install_options : InstallOptions) (settings : InstallerSettingsRef) :
    (∀ out, (do_sync project venv lock extras dev install_options settings).2
        = .ok out →
      HashStrategy.from_resolution out.resolution HashCheckingMode.verify
          = .ok out.hasher
        ∧ out.hasher.mode = HashCheckingMode.verify
        ∧ ∀ d ∈ out.resolution.dists, d.hash ≠ none)
    ∧ (Event.install
        ∈ (do_sync project venv lock extras dev install_options settings).1
      ↔ ∃ out, (do_sync project venv lock extras dev install_options
          settings).2 = .ok out)
    ∧ (∀ tags resolution0, venv.interpreter.tags = .ok tags →
        lock.to_resolution project venv.interpreter.resolver_markers tags
          extras (if dev then [DEV_DEPENDENCIES] else []) = .ok resolution0 →
        (∃ d ∈ (install_options.filter_resolution
            (apply_no_virtual_project resolution0 project) project).dists,
          d.hash = none) →
        (∃ e, (do_sync project venv lock extras dev install_options
            settings).2 = .error e)
          ∧ Event.install
            ∉ (do_sync project venv lock extras dev install_options
                settings).1) := by
  refine ⟨?_, ?_, ?_⟩
  · intro out hout
    obtain ⟨t, r0, _, _, _, _, hh, _⟩ := do_sync_ok_cases project venv lock
      extras dev install_options settings out hout
    exact ⟨hh, from_resolution_ok_mode _ _ _ hh,
      from_resolution_ok_hashed _ _ _ hh⟩
  · constructor
    · intro hmem
      rcases do_sync_cases project venv lock extras dev install_options
          settings with ⟨rp, _, _, heq⟩ | ⟨_, heq⟩
      · rw [heq] at hmem
        exact absurd hmem (by simp)
      · rcases do_sync_platform_cases project venv lock extras dev
            install_options settings with ⟨_, _, hp⟩ | ⟨_, hp⟩
        · rw [heq, hp] at hmem
          exact absurd hmem (by simp)
        · rcases do_sync_rest_cases project venv lock extras dev
              install_options settings venv.interpreter.resolver_markers with
            ⟨e, _, hr⟩ | ⟨t, e, _, _, hr⟩ | ⟨t, r0, e, _, _, _, hr⟩ |
              ⟨t, r0, hs, _, _, _, hr⟩
          · rw [heq, hp, hr] at hmem
            exact absurd hmem (by simp)
          · rw [heq, hp, hr] at hmem
            exact absurd hmem (by simp)
          · rw [heq, hp, hr] at hmem
            exact absurd hmem (by simp)
          · exact ⟨_, by rw [heq, hp, hr]⟩
    · intro ⟨out, hout⟩
      obtain ⟨_, _, _, _, _, _, _, htr⟩ := do_sync_ok_cases project venv lock
        extras dev install_options settings out hout
      rw [htr]
      simp
  · intro tags0 resolution0 htags0 hres0 hun
    rcases do_sync_cases project venv lock extras dev install_options
        settings with ⟨rp, _, _, heq⟩ | ⟨_, heq⟩
    · exact ⟨⟨_, by rw [heq]⟩, by rw [heq]; simp⟩
    · rcases do_sync_platform_cases project venv lock extras dev
          install_options settings with ⟨_, _, hp⟩ | ⟨_, hp⟩
      · exact ⟨⟨_, by rw [heq, hp]⟩, by rw [heq, hp]; simp⟩
      · rcases do_sync_rest_cases project venv lock extras dev install_options
            settings venv.interpreter.resolver_markers with
          ⟨e, _, hr⟩ | ⟨t, e, _, _, hr⟩ | ⟨t, r0, e, _, _, _, hr⟩ |
            ⟨t, r0, hs, htags, hres, hh, hr⟩
        · exact ⟨⟨_, by rw [heq, hp, hr]⟩, by rw [heq, hp, hr]; simp⟩
        · exact ⟨⟨_, by rw [heq, hp, hr]⟩, by rw [heq, hp, hr]; simp⟩
        · exact ⟨⟨_, by rw [heq, hp, hr]⟩, by rw [heq, hp, hr]; simp⟩
        · exfalso
          rw [htags0] at htags
          injection htags with htags
          subst htags
          rw [hres0] at hres
          injection hres with hres
          subst hres
          obtain ⟨e, he⟩ := from_resolution_error_of_unhashed _
            HashCheckingMode.verify hun
          rw [hh] at he
          exact absurd he (by simp)

/-- Witness for C5: the successful concrete run hands the installer the
verify-mode hasher derived from its own (filtered, fully hashed)
resolution. -/
theorem c5_hash_policy_witness :
    (do_sync proj0 venv0 lockOk [] false optsAll settings0).2 = .ok out0
    ∧ HashStrategy.from_resolution out0.resolution HashCheckingMode.verify
        = .ok out0.hasher
    ∧ out0.hasher.mode = HashCheckingMode.verify :=
  ⟨rfl,
    ((c5_hash_policy proj0 venv0 lockOk [] false optsAll settings0).1
      out0 rfl).1,
    ((c5_hash_policy proj0 venv0 lockOk [] false optsAll settings0).1
      out0 rfl).2.1⟩

/-- C6: the selected build-isolation policy is shared when the global flag
is set, shared-except-packages when the flag is unset and the exclusion set
is non-empty, and isolated otherwise; every successful run hands exactly
this policy to the installer. -/
theorem c6_build_isolation_policy (venv : PythonEnvironment)
    (settings : InstallerSettingsRef) (project : VirtualProject) (lock : Lock)
    (extras : ExtrasSpecification) (dev : Bool)
    (install_options : InstallOptions) :
    (settings.no_build_isolation = true →
      build_isolation settings.no_build_isolation
          settings.no_build_isolation_package venv
        = BuildIsolation.shared venv)
    ∧ (settings.no_build_isolation = false →
        settings.no_build_isolation_package ≠ [] →
        build_isolation settings.no_build_isolation
            settings.no_build_isolation_package venv
          = BuildIsolation.sharedPackage venv
              settings.no_build_isolation_package)
    ∧ (settings.no_build_isolation = false →
        settings.no_build_isolation_package = [] →
        build_isolation settings.no_build_isolation
            settings.no_build_isolation_package venv
          = BuildIsolation.isolated)
    ∧ (∀ out, (do_sync project venv lock extras dev install_options
          settings).2 = .ok out →
        out.build_isolation = build_isolation settings.no_build_isolation
          settings.no_build_isolation_package venv) := by
  refine ⟨?_, ?_, ?_, ?_⟩
  · intro h
    simp [build_isolation, h]
  · intro h hne
    simp [build_isolation, h, hne]
  · intro h he
    simp [build_isolation, h, he]
  · intro out hout
    obtain ⟨_, _, _, _, _, hiso, _, _⟩ := do_sync_ok_cases project venv lock
      extras dev install_options settings out hout
    exact hiso

/-- Witness for C6: with the global no-build-isolation flag set, the
selected policy on the concrete environment is shared. -/
theorem c6_build_isolation_policy_witness :
    build_isolation settingsShared.no_build_isolation
        settingsShared.no_build_isolation_package venv0
      = BuildIsolation.shared venv0 :=
  (c6_build_isolation_policy venv0 settingsShared proj0 lockOk [] false
    optsAll).1 rfl

/-- C7: the compatibility checks short-circuit — an interpreter failure
returns immediately with only the interpreter-check step executed, before
the platform markers are evaluated — and whenever the resolution is built
or the registry client constructed, both checks completed first. -/
theorem c7_check_ordering (project : VirtualProject) (venv : PythonEnvironment)
    (lock : Lock) (extras : ExtrasSpecification) (dev : Bool)
    (install_options : InstallOptions) (settings : InstallerSettingsRef) :
    (∀ rp, lock.requires_python = some rp →
      rp.contains venv.interpreter.python_version = false →
      do_sync project venv lock extras dev install_options settings
        = ([Event.interpCheck],
          .error (.lockedPythonIncompatibility
            venv.interpreter.python_version rp)))
    ∧ (∀ g, Event.buildResolution g
        ∈ (do_sync project venv lock extras dev install_options settings).1 →
        (do_sync project venv lock extras dev install_options
            settings).1.take 2
          = [Event.interpCheck, Event.platformCheck])
    ∧ (Event.buildClient
        ∈ (do_sync project venv lock extras dev install_options settings).1 →
        (do_sync project venv lock extras dev install_options
            settings).1.take 2
          = [Event.interpCheck, Event.platformCheck]) := by
  refine ⟨?_, ?_, ?_⟩
  · intro rp hrp hc
    rcases do_sync_cases project venv lock extras dev install_options
        settings with ⟨rp2, hrp2, hc2, heq⟩ | ⟨hpass, heq⟩
    · rw [hrp] at hrp2
      injection hrp2 with h
      subst h
      exact heq
    · exfalso
      rcases hpass with hnone | ⟨rp2, hrp2, hc2⟩
      · rw [hnone] at hrp
        exact absurd hrp (by simp)
      · rw [hrp2] at hrp
        injection hrp with h
        subst h
        rw [hc] at hc2
        exact absurd hc2 (by simp)
  · intro g hg
    rcases do_sync_trace_cases project venv lock extras dev install_options
        settings with h | h | h | h | h <;> rw [h] at hg <;> rw [h] <;>
      simp_all
  · intro hg
    rcases do_sync_trace_cases project venv lock extras dev install_options
        settings with h | h | h | h | h <;> rw [h] at hg <;> rw [h] <;>
      simp_all

/-- Witness for C7: on a lock failing both checks, the concrete run stops
at the interpreter check with only that step executed. -/
theorem c7_check_ordering_witness :
    do_sync proj0 venv0 lockBadBoth [] false optsAll settings0
      = ([Event.interpCheck],
        .error (.lockedPythonIncompatibility [3, 8] rpFalse)) :=
  (c7_check_ordering proj0 venv0 lockBadBoth [] false optsAll settings0).1
    rpFalse rfl rfl

/-- C8: the resolution-construction step is always invoked with exactly the
singleton dev-dependencies group when the dev flag is set and with the
empty group list otherwise, and every successful run did invoke it with
that selection. -/
theorem c8_dev_groups (project : VirtualProject) (venv : PythonEnvironment)
    (lock : Lock) (extras : ExtrasSpecification) (dev : Bool)
    (install_options : InstallOptions) (settings : InstallerSettingsRef) :
    (∀ g, Event.buildResolution g
        ∈ (do_sync project venv lock extras dev install_options settings).1 →
      g = if dev then [DEV_DEPENDENCIES] else [])
    ∧ (∀ out, (do_sync project venv lock extras dev install_options
          settings).2 = .ok out →
        Event.buildResolution (if dev then [DEV_DEPENDENCIES] else [])
          ∈ (do_sync project venv lock extras dev install_options
              settings).1) := by
  constructor
  · intro g hg
    rcases do_sync_trace_cases project venv lock extras dev install_options
        settings with h | h | h | h | h <;> rw [h] at hg <;> simp_all
  · intro out hout
    obtain ⟨_, _, _, _, _, _, _, htr⟩ := do_sync_ok_cases project venv lock
      extras dev install_options settings out hout
    rw [htr]
    simp

/-- Witness for C8: the successful concrete run with the dev flag set
records the singleton dev group at the resolution step. -/
theorem c8_dev_groups_witness :
    Event.buildResolution [DEV_DEPENDENCIES]
      ∈ (do_sync proj0 venv0 lockOk [] true optsAll settings0).1 :=
  (c8_dev_groups proj0 venv0 lockOk [] true optsAll settings0).2 out0 rfl

/-- C9: when locking reports the solver's no-solution failure, `sync` takes
the dedicated report path and returns normally with the distinct failure
exit status; every other locking error is propagated unchanged as a generic
error. -/
theorem c9_no_solution_handling (extras : ExtrasSpecification) (dev : Bool)
    (install_options : InstallOptions) (settings : InstallerSettingsRef)
    (env : SyncEnv) (project : VirtualProject) (venv : PythonEnvironment)
    (hproj : env.discover_virtual = .ok project)
    (hvenv : env.get_or_init_environment = .ok venv) :
    (∀ e, env.do_safe_lock = .error (.operation (.resolve (.noSolution e))) →
      sync none extras dev install_options settings env
        = ([SyncEvent.identifyProject, SyncEvent.initEnvironment,
            SyncEvent.safeLock, SyncEvent.reportNoSolution e],
          .ok ExitStatus.failure))
    ∧ (∀ err, env.do_safe_lock = .error err →
        (∀ e, err ≠ .operation (.resolve (.noSolution e))) →
        (sync none extras dev install_options settings env).2
          = .error (.fromProject err)) := by
  constructor
  · intro e hlock
    simp [sync, identify_project, hproj, hvenv, hlock]
  · intro err hlock hne
    match err with
    | .operation (.resolve (.noSolution e)) => exact absurd rfl (hne e)
    | .operation (.resolve (.otherResolve m)) =>
      simp [sync, identify_project, hproj, hvenv, hlock]
    | .operation (.otherOperation m) =>
      simp [sync, identify_project, hproj, hvenv, hlock]
    | .lockedPythonIncompatibility v r =>
      simp [sync, identify_project, hproj, hvenv, hlock]
    | .lockedPlatformIncompatibility s =>
      simp [sync, identify_project, hproj, hvenv, hlock]
    | .tags m =>
      simp [sync, identify_project, hproj, hvenv, hlock]
    | .lock m =>
      simp [sync, identify_project, hproj, hvenv, hlock]
    | .hash n =>
      simp [sync, identify_project, hproj, hvenv, hlock]

/-- Witness for C9: a concrete no-solution locking failure is reported and
mapped to the failure exit status. -/
theorem c9_no_solution_handling_witness :
    sync none [] false optsAll settings0 envNoSolution
      = ([SyncEvent.identifyProject, SyncEvent.initEnvironment,
          SyncEvent.safeLock, SyncEvent.reportNoSolution "no solution"],
        .ok ExitStatus.failure) :=
  (c9_no_solution_handling [] false optsAll settings0 envNoSolution proj0
    venv0 rfl rfl).1 "no solution" rfl

/-- C10: an explicit package name absent from the discovered workspace makes
`sync` fail with the message naming the package, before the environment
step and before the locking step. -/
theorem c10_missing_package (extras : ExtrasSpecification) (dev : Bool)
    (install_options : InstallOptions) (settings : InstallerSettingsRef)
    (env : SyncEnv) (package : String) (ws : Workspace)
    (hws : env.discover_workspace = .ok ws)
    (habsent : ws.packages.any (fun q => q.1 == package) = false) :
    sync (some package) extras dev install_options settings env
      = ([SyncEvent.identifyProject],
        .error (.context
          ("Package `" ++ package ++ "` not found in workspace")))
    ∧ SyncEvent.initEnvironment
        ∉ (sync (some package) extras dev install_options settings env).1
    ∧ SyncEvent.safeLock
        ∉ (sync (some package) extras dev install_options settings env).1 := by
  have h1 : sync (some package) extras dev install_options settings env
      = ([SyncEvent.identifyProject],
        .error (.context
          ("Package `" ++ package ++ "` not found in workspace"))) := by
    simp [sync, identify_project, hws, Workspace.with_current_project, habsent]
  exact ⟨h1, by rw [h1]; simp, by rw [h1]; simp⟩

/-- Witness for C10: asking for a package missing from the concrete
workspace fails immediately with the naming message. -/
theorem c10_missing_package_witness :
    sync (some "nosuch") [] false optsAll settings0 envOk
      = ([SyncEvent.identifyProject],
        .error (.context "Package `nosuch` not found in workspace")) :=
  (c10_missing_package [] false optsAll settings0 envOk "nosuch" ws0 rfl
    (by decide)).1

/-- Witness for C4: on the concrete fixtures the virtual-member filter
removes exactly the entries named by non-package workspace members. -/
theorem c4_apply_no_virtual_project_witness :
    (apply_no_virtual_project res0 (VirtualProject.project pw0)).dists
      = res0.dists.filter (fun d =>
          !pw0.workspace.packages.any (fun q =>
            q.1 == d.name && !q.2.pyproject_toml.is_package)) :=
  (c4_apply_no_virtual_project res0).2 pw0
